import Mathlib

/-!
Verification development for the loginid cognito-sdk custom-authentication
orchestration.  The definitions below are a shallow embedding of the
TypeScript sources: callback handlers become pure functions from their
inputs (challenge parameters and the results of awaited calls) to the list
of observable actions they perform, and a whole orchestration call becomes
a fold of those handlers over the sequence of identity-provider events.
Sources embedded: src/src/cognito/index.ts (primary variant),
src/src/cognito/types.ts, src/src/loginid/index.ts, src/src/errors/index.ts,
and the AuthResult-returning variant src/unnamed/part_015.
-/

namespace CognitoSDK

/-- The CustomAuthentication enum of src/src/cognito/index.ts (lines 20-26). -/
inductive CustomAuthentication where
  | ACCESS_JWT
  | EMAIL_OTP
  | AUTH_PARAMS
  | FIDO2_CREATE
  | FIDO2_GET
deriving DecidableEq, Repr

/-- The string value carried by each enum member of CustomAuthentication. -/
def CustomAuthentication.value : CustomAuthentication → String
  | .ACCESS_JWT => "JWT_ACCESS"
  | .EMAIL_OTP => "EMAIL_OTP"
  | .AUTH_PARAMS => "AUTH_PARAMS"
  | .FIDO2_CREATE => "FIDO2_CREATE"
  | .FIDO2_GET => "FIDO2_GET"

/-- DEFAULT_MATCH_THRESHOLD from src/src/cognito/types.ts (line 22). -/
def DEFAULT_MATCH_THRESHOLD : Nat := 80

/-- A JavaScript error value as the SDK observes it: its message, whether it
is an instance of LoginidAPIError (src/src/errors/index.ts), and the optional
machine-readable msgCode carried by LoginidAPIError. -/
structure JsError where
  message : String
  isLoginidAPIError : Bool
  msgCode : Option String
deriving DecidableEq, Repr

/-- The challenge parameters delivered by Cognito to a customChallenge
callback.  The code reads only the challenge tag (challengParams?.challenge);
a missing tag is modelled as none. -/
structure ChallengeParams where
  challenge : Option String
deriving DecidableEq, Repr

/-- The AuthResult shape of src/src/cognito/types.ts (lines 43-50). -/
structure AuthResult where
  idToken : String
  accessToken : String
  refreshToken : Option String
  isAuthenticated : Bool
  isFallback : Bool
  fallbackOptions : Option (List String)
deriving DecidableEq, Repr

/-- The InnerOptions value built at the start of customAuthenticationPasskey
(src/src/cognito/index.ts lines 86-94): caller token plus browser data plus
the optional user display fields.  The serialized JSON blob placed into
clientMetadata is modelled by this structure itself. -/
structure InnerOptions where
  idToken : String
  deviceInfo : String
  userAgent : String
  displayName : Option String
  usernameType : Option String
deriving DecidableEq, Repr

/-- The clientMetadata bag built inside every customChallenge handler:
caller metaData entries, the serialized InnerOptions (absent in the
EMAIL_OTP flows which do not add an options field), and the
authentication_type stamp. -/
structure ClientMetadata where
  metaData : List (String × String)
  options : Option InnerOptions
  authentication_type : String
deriving DecidableEq, Repr

/-- The auth-init request body built by callbackGetObj.customChallenge
(src/src/cognito/index.ts lines 156-160). -/
structure AuthInitRequestBody where
  appId : String
  username : String
  usernameType : String
  deviceInfo : String
deriving DecidableEq, Repr

/-- The terminal outcome delivered through the enclosing promise:
resolve(session), resolve(user), resolve(null), resolve(authResult), or
reject(error). -/
inductive Outcome where
  | session
  | user
  | null
  | result (r : AuthResult)
  | err (e : JsError)
deriving DecidableEq, Repr

/-- One observable action performed by a customChallenge handler or a
terminal callback, in program order. -/
inductive Action where
  | sendAnswer (answer : String) (meta : ClientMetadata)
  | abortController
  | createCredential (init : String)
  | getCredential
  | regComplete
  | authInit (req : AuthInitRequestBody)
  | authComplete
  | saveTrustedDevice (username : String) (deviceID : String)
  | setJwtCookie (jwt : String)
  | onFallback (username : String) (methods : List String)
  | settle (o : Outcome)
deriving DecidableEq, Repr

/-- CustomAuthenticationOptions as the primary variant uses it: the caller
metaData bag, optional display fields, the optional AbortController (some b
models a controller whose signal.aborted flag is b), the optional
matchThreshold, and whether a fallback callback object is registered. -/
structure CustomAuthenticationOptions where
  metaData : List (String × String)
  displayName : Option String
  usernameType : Option String
  abortController : Option Bool
  matchThreshold : Option Nat
  fallback : Bool
deriving DecidableEq, Repr

/-- options.abortController && !options.abortController.signal.aborted
(src/src/cognito/index.ts lines 115 and 179). -/
def abortControllerActive (options : CustomAuthenticationOptions) : Bool :=
  match options.abortController with
  | none => false
  | some aborted => !aborted

/-- options.matchThreshold || DEFAULT_MATCH_THRESHOLD
(src/src/cognito/index.ts line 168); a present threshold of 0 is falsy in
JavaScript and therefore also yields the default. -/
def effectiveMatchThreshold (options : CustomAuthenticationOptions) : Nat :=
  match options.matchThreshold with
  | none => DEFAULT_MATCH_THRESHOLD
  | some t => if t = 0 then DEFAULT_MATCH_THRESHOLD else t

/-- Result of lidService.passkeyRegComplete: the backend access token and the
optional trusted-device id. -/
structure RegCompleteResult where
  jwtAccess : String
  deviceID : Option String
deriving DecidableEq, Repr

/-- Result of lidService.passkeyAuthComplete. -/
structure JwtResult where
  jwtAccess : String
deriving DecidableEq, Repr

/-- The fields of a passkeyAuthInit response read by the primary variant
(src/src/cognito/index.ts): the optional matchScore (absent models a
missing/undefined field) and the optional fallbackOptions list. -/
structure AuthInitResult where
  matchScore : Option Nat
  fallbackOptions : Option (List String)
deriving DecidableEq, Repr

/-- Per-round environment of callbackCreateObj.customChallenge: the result of
JSON.parse(challengParams.public_key), of lid.createNavigatorCredential, and
of lidService.passkeyRegComplete.  An error means the awaited expression
threw; the handler has no try/catch, so the rest of the handler body is then
skipped and nothing settles the enclosing promise. -/
structure Fido2CreateEnv where
  parsePublicKey : Except JsError String
  createCredential : Except JsError Unit
  regComplete : Except JsError RegCompleteResult
deriving Repr

/-- Per-round environment of callbackGetObj.customChallenge: the result of
lidService.passkeyAuthInit (ok none models a null/undefined response, the
!auth_init_result check), of lid.getNavigatorCredential, and of
lidService.passkeyAuthComplete. -/
structure Fido2GetEnv where
  authInit : Except JsError (Option AuthInitResult)
  getCredential : Except JsError Unit
  authComplete : Except JsError JwtResult
deriving Repr

/-- The error value reject receives in the fallback branches:
new LoginidAPIError with message no passkey detected and msgCode
ERROR_FALLBACK. -/
def noPasskeyDetectedError : JsError :=
  { message := "no passkey detected", isLoginidAPIError := true,
    msgCode := some "ERROR_FALLBACK" }

/-- The catch block of callbackGetObj.customChallenge
(src/src/cognito/index.ts lines 196-208): only a LoginidAPIError whose
msgCode is not_found is acted on; with a registered fallback callback the
handler is invoked with an empty method list, otherwise the promise is
rejected with the fallback-coded error.  Every other caught error is
swallowed without settling the promise. -/
def fido2GetCatch (options : CustomAuthenticationOptions) (username : String)
    (e : JsError) : List Action :=
  if e.isLoginidAPIError = true ∧ e.msgCode = some "not_found" then
    if options.fallback then
      [Action.onFallback username []]
    else
      [Action.settle (Outcome.err noPasskeyDetectedError)]
  else
    []

/-- The truthiness of
auth_init_result.matchScore && auth_init_result.matchScore < match_threshold
combined with the preceding !auth_init_result disjunct
(src/src/cognito/index.ts line 170); a matchScore of 0 is falsy in
JavaScript, so a zero score does not enter the fallback branch. -/
def lowMatchCondition (initRes : Option AuthInitResult) (threshold : Nat) : Bool :=
  match initRes with
  | none => true
  | some r =>
    match r.matchScore with
    | none => false
    | some s => !(s == 0) && decide (s < threshold)

/-- callbackCreateObj.customChallenge (src/src/cognito/index.ts lines
98-134) as the list of actions it performs for one challenge round. -/
def callbackCreateObjCustomChallenge (username : String)
    (options : CustomAuthenticationOptions) (meta : ClientMetadata)
    (params : ChallengeParams) (env : Fido2CreateEnv) : List Action :=
  if params.challenge = some (CustomAuthentication.AUTH_PARAMS).value then
    [Action.sendAnswer (CustomAuthentication.AUTH_PARAMS).value meta]
  else
    match env.parsePublicKey with
    | .error _ => []
    | .ok init =>
      (if abortControllerActive options then [Action.abortController] else [])
      ++ Action.createCredential init ::
        match env.createCredential with
        | .error _ => []
        | .ok _ =>
          Action.regComplete ::
            match env.regComplete with
            | .error _ => []
            | .ok r =>
              (match r.deviceID with
               | some d => [Action.saveTrustedDevice username d]
               | none => [])
              ++ [Action.setJwtCookie r.jwtAccess,
                  Action.sendAnswer r.jwtAccess meta]

/-- callbackGetObj.customChallenge (src/src/cognito/index.ts lines 148-211)
as the list of actions it performs for one challenge round.  The source
ignores its challenge-parameters argument (named underscore challengParams),
so this definition takes none.  In the fallback branch with a registered
handler and a null init result, evaluating auth_init_result.fallbackOptions
throws a TypeError that the catch block swallows, which yields no action. -/
def callbackGetObjCustomChallenge (username : String)
    (options : CustomAuthenticationOptions) (meta : ClientMetadata)
    (appId deviceInfo : String) (env : Fido2GetEnv) : List Action :=
  Action.authInit
      { appId := appId, username := username, usernameType := "email",
        deviceInfo := deviceInfo } ::
    match env.authInit with
    | .error e => fido2GetCatch options username e
    | .ok initRes =>
      if lowMatchCondition initRes (effectiveMatchThreshold options) then
        if options.fallback then
          match initRes with
          | some r => [Action.onFallback username (r.fallbackOptions.getD [])]
          | none => []
        else
          [Action.settle (Outcome.err noPasskeyDetectedError)]
      else
        (if abortControllerActive options then [Action.abortController] else [])
        ++ Action.getCredential ::
          match env.getCredential with
          | .error e => fido2GetCatch options username e
          | .ok _ =>
            Action.authComplete ::
              match env.authComplete with
              | .error e => fido2GetCatch options username e
              | .ok jwt => [Action.sendAnswer jwt.jwtAccess meta]

/-- callbackJWTObj.customChallenge (src/src/cognito/index.ts lines 224-247).
The AUTH_PARAMS echo in that handler is commented out in the source: an
AUTH_PARAMS-tagged challenge only logs and falls through, so every round
answers with the caller-supplied token. -/
def callbackJWTObjCustomChallenge (token : String) (meta : ClientMetadata)
    (_params : ChallengeParams) : List Action :=
  [Action.sendAnswer token meta]

/-- callbackEmailOTP.customChallenge of customAuthenticationInit
(src/src/cognito/index.ts lines 313-331): echo the AUTH_PARAMS sentinel,
or resolve the pending user on an EMAIL_OTP tag, or reject. -/
def callbackEmailOTPCustomChallenge (meta : ClientMetadata)
    (params : ChallengeParams) : List Action :=
  if params.challenge = some (CustomAuthentication.AUTH_PARAMS).value then
    [Action.sendAnswer (CustomAuthentication.AUTH_PARAMS).value meta]
  else if params.challenge = some (CustomAuthentication.EMAIL_OTP).value then
    [Action.settle Outcome.user]
  else
    [Action.settle (Outcome.err
      { message := "Invalid custom challenge", isLoginidAPIError := false,
        msgCode := none })]

/-- The customChallenge callback of customAuthenticationComplete
(src/src/cognito/index.ts lines 377-381): a bare provider retry signal is
answered by resolving the promise with null. -/
def completeCallbackCustomChallenge : List Action :=
  [Action.settle Outcome.null]

/-- The token strings of a successful CognitoUserSession, as read by the
onSuccess callbacks of the part_015 variant. -/
structure SessionTokens where
  idToken : String
  accessToken : String
  refreshToken : String
deriving DecidableEq, Repr

/-- A combined per-round environment for the mode-specific handlers; each
mode reads only its own component. -/
structure RoundEnv where
  create : Fido2CreateEnv
  get : Fido2GetEnv
deriving Repr

/-- One reply of the identity provider within a custom-authentication
conversation: another custom challenge, terminal success, or terminal
failure. -/
inductive ProviderEvent where
  | challenge (params : ChallengeParams) (env : RoundEnv)
  | success (s : SessionTokens)
  | failure (e : JsError)
deriving Repr

/-- Whether an action is a sendCustomChallengeAnswer call. -/
def Action.isSendAnswer : Action → Bool
  | .sendAnswer _ _ => true
  | _ => false

/-- Whether a list of actions contains a challenge answer; Cognito invokes
the next callback only after an answer is sent. -/
def sendsAnswer (as : List Action) : Bool :=
  as.any Action.isSendAnswer

/-- Projects the settlement (resolve/reject) performed by an action. -/
def Action.settleOutcome : Action → Option Outcome
  | .settle o => some o
  | _ => none

/-- The settlements contained in a trace, in order. -/
def settles (as : List Action) : List Outcome :=
  as.filterMap Action.settleOutcome

/-- Drives one custom-authentication conversation.  Each provider event is
dispatched to the matching callback: customChallenge for a challenge round,
onSuccess for terminal success and onFailure for terminal failure (both of
which end the conversation).  A further provider event is only processed if
the previous round sent a challenge answer — Cognito does not call back
until sendCustomChallengeAnswer is invoked.  Returns the accumulated action
trace together with a flag that is true when the conversation is still
awaiting a provider reply (an answer was sent but no further event
occurred); when the flag is false the call has run to quiescence. -/
def runCustomAuth (handler : ChallengeParams → RoundEnv → List Action)
    (onSuccess : SessionTokens → List Action) :
    List ProviderEvent → List Action × Bool
  | [] => ([], true)
  | ProviderEvent.success s :: _ => (onSuccess s, false)
  | ProviderEvent.failure e :: _ => ([Action.settle (Outcome.err e)], false)
  | ProviderEvent.challenge params env :: rest =>
    let as := handler params env
    if sendsAnswer as then
      let r := runCustomAuth handler onSuccess rest
      (as ++ r.1, r.2)
    else
      (as, false)

/-- The terminal onSuccess callback of the primary variant
(src/src/cognito/index.ts): resolve(session). -/
def srcOnSuccess : SessionTokens → List Action :=
  fun _ => [Action.settle Outcome.session]

/-- Models the JavaScript String.toLowerCase call: each character mapped to
its lower-case form. -/
def jsToLowerCase (s : String) : String :=
  String.mk (s.data.map Char.toLower)

/-- The Username placed in both AuthenticationDetails and the CognitoUser
data by customAuthenticationPasskey and customAuthenticationInit
(src/src/cognito/index.ts lines 72-80 and 296-304): the caller username
lowercased. -/
def cognitoIdentityUsername (username : String) : String :=
  jsToLowerCase username

/-- The localStorage key built by LoginIDService.saveTrustedDevice and
getTrustedDevice (src/src/services/loginid.ts lines 215-226, likewise
src/unnamed/part_005 lines 191-201): the trusted-device prefix plus the
lowercased username. -/
def saveTrustedDeviceStorageKey (username : String) : String :=
  "trusted-device." ++ jsToLowerCase username

/-- The InnerOptions value built by customAuthenticationPasskey
(src/src/cognito/index.ts lines 86-94).  An empty displayName string is
falsy in JavaScript and is therefore not spread into the user object. -/
def mkFullOptions (token deviceInfo userAgent : String)
    (options : CustomAuthenticationOptions) : InnerOptions :=
  { idToken := token, deviceInfo := deviceInfo, userAgent := userAgent,
    displayName :=
      match options.displayName with
      | some "" => none
      | d => d,
    usernameType := options.usernameType }

/-- The clientMetadata built inside the passkey customChallenge handlers. -/
def mkClientMetadata (options : CustomAuthenticationOptions)
    (inner : Option InnerOptions) (authType : CustomAuthentication) :
    ClientMetadata :=
  { metaData := options.metaData, options := inner,
    authentication_type := authType.value }

/-- customAuthenticationPasskey (src/src/cognito/index.ts lines 62-279)
run against a sequence of provider events.  The deviceInfo and userAgent
strings and the service appId and per-user device info are environment
inputs.  An unsupported type throws Invalid custom authentication type
before any conversation starts, modelled as none. -/
def customAuthenticationPasskey (username token : String)
    (typ : CustomAuthentication) (options : CustomAuthenticationOptions)
    (deviceInfo userAgent appId serviceDeviceInfo : String)
    (events : List ProviderEvent) : Option (List Action × Bool) :=
  let fullOptions := mkFullOptions token deviceInfo userAgent options
  match typ with
  | .FIDO2_CREATE =>
    some (runCustomAuth
      (fun params env =>
        callbackCreateObjCustomChallenge username options
          (mkClientMetadata options (some fullOptions) .FIDO2_CREATE)
          params env.create)
      srcOnSuccess events)
  | .FIDO2_GET =>
    some (runCustomAuth
      (fun _params env =>
        callbackGetObjCustomChallenge username options
          (mkClientMetadata options (some fullOptions) .FIDO2_GET)
          appId serviceDeviceInfo env.get)
      srcOnSuccess events)
  | .ACCESS_JWT =>
    some (runCustomAuth
      (fun params _env =>
        callbackJWTObjCustomChallenge token
          (mkClientMetadata options (some fullOptions) .ACCESS_JWT) params)
      srcOnSuccess events)
  | _ => none

/-- customAuthenticationInit (src/src/cognito/index.ts lines 290-354) run
against a sequence of provider events; only EMAIL_OTP is supported. -/
def customAuthenticationInit (_username : String)
    (typ : CustomAuthentication) (options : CustomAuthenticationOptions)
    (events : List ProviderEvent) : Option (List Action × Bool) :=
  match typ with
  | .EMAIL_OTP =>
    some (runCustomAuth
      (fun params _env =>
        callbackEmailOTPCustomChallenge
          (mkClientMetadata options none .EMAIL_OTP) params)
      (fun _ => [Action.settle Outcome.user]) events)
  | _ => none

/-- customAuthenticationComplete (src/src/cognito/index.ts lines 364-399)
run against a sequence of provider events: the answer is sent first, then
the provider replies; a further customChallenge resolves null. -/
def customAuthenticationComplete (answer : String)
    (typ : CustomAuthentication) (options : CustomAuthenticationOptions)
    (events : List ProviderEvent) : List Action × Bool :=
  let meta := mkClientMetadata options none typ
  let r := runCustomAuth (fun _ _ => completeCallbackCustomChallenge)
    srcOnSuccess events
  (Action.sendAnswer answer meta :: r.1, r.2)

/-- The error thrown by completeEmailOTP when no email-OTP init has stored
a pending user (src/src/loginid/index.ts line 225). -/
def noUserInitializedError : JsError :=
  { message := "No user initialized for email OTP",
    isLoginidAPIError := false, msgCode := none }

/-- completeEmailOTP of the facade (src/src/loginid/index.ts lines
221-233): with no pending Cognito user the call throws before any challenge
answer is sent; otherwise it delegates to customAuthenticationComplete with
the OTP as the answer. -/
def completeEmailOTP (currentCognitoUser : Option Unit) (otp : String)
    (options : CustomAuthenticationOptions) (events : List ProviderEvent) :
    Except JsError (List Action × Bool) :=
  match currentCognitoUser with
  | none => .error noUserInitializedError
  | some _ =>
    .ok (customAuthenticationComplete otp CustomAuthentication.EMAIL_OTP
      options events)

/-! The AuthResult-returning variant of the orchestrator,
src/unnamed/part_015 (second document in that file).  Prefixed p15. -/

/-- The AuthResult built by every onSuccess callback of the part_015
passkey and completion flows (for example lines 561-570): the session
tokens with isAuthenticated true and isFallback false. -/
def mkSuccessAuthResult (s : SessionTokens) : AuthResult :=
  { idToken := s.idToken, accessToken := s.accessToken,
    refreshToken := some s.refreshToken, isAuthenticated := true,
    isFallback := false, fallbackOptions := none }

/-- The AuthResult built by the part_015 FIDO2_GET fallback branch (lines
601-607): empty tokens, isAuthenticated false, isFallback true, and the
fallbackMethods offered by the auth-init response. -/
def p15FallbackAuthResult (methods : Option (List String)) : AuthResult :=
  { idToken := "", accessToken := "", refreshToken := none,
    isAuthenticated := false, isFallback := true,
    fallbackOptions := methods }

/-- The AuthResult resolved by the part_015 signUp path when autoSignIn is
off (lines 890-898): empty tokens with both flags false. -/
def p15SignUpAuthResult : AuthResult :=
  { idToken := "", accessToken := "", refreshToken := none,
    isAuthenticated := false, isFallback := false, fallbackOptions := none }

/-- The fields of a passkeyAuthInit response read by the part_015 variant:
the action string and the optional fallbackMethods list. -/
structure P15AuthInitResult where
  action : String
  fallbackMethods : Option (List String)
deriving DecidableEq, Repr

/-- Per-round environment of the part_015 callbackGetObj.customChallenge:
the passkeyAuthInit outcome, the stored has-autofill flag for the user, and
the outcomes of getNavigatorCredential and passkeyAuthComplete. -/
structure P15GetEnv where
  authInit : Except JsError P15AuthInitResult
  hasAutofill : Bool
  getCredential : Except JsError Unit
  authComplete : Except JsError JwtResult
deriving Repr

/-- The catch block of the part_015 callbackGetObj.customChallenge (lines
629-636): a LoginidAPIError with msgCode not_found rejects with the
fallback-coded error; every other caught error is swallowed without
settling the promise. -/
def p15Fido2GetCatch (e : JsError) : List Action :=
  if e.isLoginidAPIError = true ∧ e.msgCode = some "not_found" then
    [Action.settle (Outcome.err noPasskeyDetectedError)]
  else
    []

/-- The part_015 callbackGetObj.customChallenge (lines 580-639): when the
user has no recorded autofill use and the init action is not proceed, the
promise resolves with the fallback AuthResult; otherwise the WebAuthn
assertion flow runs and the resulting access token is sent as the answer. -/
def p15CallbackGetObjCustomChallenge (username : String)
    (options : CustomAuthenticationOptions) (meta : ClientMetadata)
    (appId deviceInfo : String) (env : P15GetEnv) : List Action :=
  Action.authInit
      { appId := appId, username := username, usernameType := "email",
        deviceInfo := deviceInfo } ::
    match env.authInit with
    | .error e => p15Fido2GetCatch e
    | .ok r =>
      if env.hasAutofill = false ∧ r.action ≠ "proceed" then
        [Action.settle (Outcome.result (p15FallbackAuthResult r.fallbackMethods))]
      else
        (if abortControllerActive options then [Action.abortController] else [])
        ++ Action.getCredential ::
          match env.getCredential with
          | .error e => p15Fido2GetCatch e
          | .ok _ =>
            Action.authComplete ::
              match env.authComplete with
              | .error e => p15Fido2GetCatch e
              | .ok jwt => [Action.sendAnswer jwt.jwtAccess meta]

/-- The retry error rejected by the part_015 customAuthenticationComplete
customChallenge callback (line 809). -/
def p15RetryError : JsError :=
  { message := "error - please retry", isLoginidAPIError := true,
    msgCode := none }

/-- The customChallenge callback of the part_015
customAuthenticationComplete (lines 807-810): a bare provider retry signal
rejects with the retry error. -/
def p15CompleteCallbackCustomChallenge : List Action :=
  [Action.settle (Outcome.err p15RetryError)]

/-- The terminal onSuccess callback of the part_015 variant: resolve with
the success AuthResult built from the session tokens. -/
def p15OnSuccess : SessionTokens → List Action :=
  fun s => [Action.settle (Outcome.result (mkSuccessAuthResult s))]

/-- The part_015 customAuthenticationComplete (lines 793-835) run against a
sequence of provider events. -/
def p15CustomAuthenticationComplete (answer : String)
    (typ : CustomAuthentication) (options : CustomAuthenticationOptions)
    (events : List ProviderEvent) : List Action × Bool :=
  let meta := mkClientMetadata options none typ
  let r := runCustomAuth (fun _ _ => p15CompleteCallbackCustomChallenge)
    p15OnSuccess events
  (Action.sendAnswer answer meta :: r.1, r.2)

/-! Concrete inputs used by counterexamples and witnesses. -/

/-- Options with a registered fallback handler and everything else absent
(matchThreshold therefore defaults to 80). -/
def sampleFallbackOptions : CustomAuthenticationOptions :=
  { metaData := [], displayName := none, usernameType := none,
    abortController := none, matchThreshold := none, fallback := true }

/-- Options with no fallback handler and an active (not yet aborted)
AbortController. -/
def sampleAbortOptions : CustomAuthenticationOptions :=
  { metaData := [], displayName := none, usernameType := none,
    abortController := some false, matchThreshold := none, fallback := false }

/-- An auth-init response whose match score 50 is below the default
threshold 80 and which offers one fallback method. -/
def sampleLowScoreInit : AuthInitResult :=
  { matchScore := some 50, fallbackOptions := some ["email_otp"] }

/-- A FIDO2_GET round environment delivering the low-score init result. -/
def sampleLowScoreGetEnv : Fido2GetEnv :=
  { authInit := .ok (some sampleLowScoreInit), getCredential := .ok (),
    authComplete := .ok { jwtAccess := "backendJwt" } }

/-- An auth-init response with match score 0: below every positive
threshold, but falsy in JavaScript. -/
def sampleZeroScoreInit : AuthInitResult :=
  { matchScore := some 0, fallbackOptions := none }

/-- A FIDO2_GET round environment delivering the zero-score init result. -/
def sampleZeroScoreGetEnv : Fido2GetEnv :=
  { authInit := .ok (some sampleZeroScoreInit), getCredential := .ok (),
    authComplete := .ok { jwtAccess := "backendJwt" } }

/-- A FIDO2_CREATE round environment in which every backend step succeeds
and a trusted-device id is returned. -/
def sampleCreateEnv : Fido2CreateEnv :=
  { parsePublicKey := .ok "parsedPublicKeyOptions",
    createCredential := .ok (),
    regComplete := .ok { jwtAccess := "backendJwt", deviceID := some "device1" } }

/-- A combined round environment built from the samples. -/
def sampleRoundEnv : RoundEnv :=
  { create := sampleCreateEnv, get := sampleLowScoreGetEnv }

/-- A sample metadata bag. -/
def sampleMeta : ClientMetadata :=
  { metaData := [], options := none,
    authentication_type := (CustomAuthentication.FIDO2_GET).value }

/-- The settlements and quiescence flag of an orchestration run. -/
def settlesOf : Option (List Action × Bool) → Option (List Outcome × Bool)
  | none => none
  | some r => some (settles r.1, r.2)

/-- A handler trace is well behaved when it settles the promise at most
once and, whenever it sends a challenge answer (so the conversation will
continue), it settles nothing. -/
def WellBehavedTrace (as : List Action) : Prop :=
  (settles as).length ≤ 1 ∧ (sendsAnswer as = true → settles as = [])

/-- True when the run of an orchestration call (none models a thrown
Invalid custom authentication type) settles its promise at most once. -/
def settlesAtMostOnce : Option (List Action × Bool) → Prop
  | none => True
  | some r => (settles r.1).length ≤ 1

/-- Whether a terminal outcome is a rejection. -/
def Outcome.isErr : Outcome → Bool
  | .err _ => true
  | _ => false

/-- Whether a settled outcome respects the AuthResult flag invariant:
a resolved AuthResult never has isAuthenticated and isFallback both true. -/
def resultFlagsOk (o : Outcome) : Bool :=
  match o with
  | .result r => !(r.isAuthenticated && r.isFallback)
  | _ => true

/-- True when a trace performs no passkey-backend call (registration or
authentication init/complete). -/
def noBackendCalls (as : List Action) : Bool :=
  as.all fun a =>
    match a with
    | .authInit _ => false
    | .authComplete => false
    | .regComplete => false
    | _ => true

/-- True when every challenge answer sent in a trace is exactly the given
token. -/
def answersAre (token : String) (as : List Action) : Bool :=
  as.all fun a =>
    match a with
    | .sendAnswer ans _ => ans == token
    | _ => true

/-! Helper lemmas about traces. -/

theorem settles_nil : settles [] = [] := rfl

theorem settles_cons (a : Action) (as : List Action) :
    settles (a :: as) =
      match a.settleOutcome with
      | some o => o :: settles as
      | none => settles as := by
  simp only [settles, List.filterMap_cons]
  cases a.settleOutcome <;> rfl

theorem settles_append (a b : List Action) :
    settles (a ++ b) = settles a ++ settles b := by
  simp [settles]

theorem sendsAnswer_append (a b : List Action) :
    sendsAnswer (a ++ b) = (sendsAnswer a || sendsAnswer b) := by
  simp [sendsAnswer]

theorem wellBehaved_of_settles_nil {as : List Action}
    (h : settles as = []) : WellBehavedTrace as := by
  constructor
  · simp [h]
  · intro _; exact h

/-- A single settlement is a well behaved trace. -/
theorem wellBehaved_settle_only (o : Outcome) :
    WellBehavedTrace [Action.settle o] := by
  constructor
  · simp [settles, Action.settleOutcome]
  · intro h
    simp [sendsAnswer, Action.isSendAnswer] at h

/-- A trace that never settles and never sends can be prepended to a well
behaved trace. -/
theorem wellBehaved_append_silent (pre as : List Action)
    (hs : settles pre = []) (hd : sendsAnswer pre = false)
    (h : WellBehavedTrace as) : WellBehavedTrace (pre ++ as) := by
  constructor
  · rw [settles_append, hs]
    simpa using h.1
  · intro hsend
    rw [sendsAnswer_append, hd] at hsend
    simp at hsend
    rw [settles_append, hs, h.2 hsend]
    rfl

/-- fido2GetCatch never sends an answer, and is well behaved. -/
theorem fido2GetCatch_wellBehaved (options : CustomAuthenticationOptions)
    (username : String) (e : JsError) :
    WellBehavedTrace (fido2GetCatch options username e) ∧
    sendsAnswer (fido2GetCatch options username e) = false := by
  unfold fido2GetCatch
  split
  · split
    · exact ⟨wellBehaved_of_settles_nil rfl, rfl⟩
    · exact ⟨wellBehaved_settle_only _, rfl⟩
  · exact ⟨wellBehaved_of_settles_nil rfl, rfl⟩

/-- The FIDO2_CREATE customChallenge handler never settles the promise:
its only terminal effects are challenge answers. -/
theorem callbackCreate_settles_nil (username : String)
    (options : CustomAuthenticationOptions) (meta : ClientMetadata)
    (params : ChallengeParams) (env : Fido2CreateEnv) :
    settles (callbackCreateObjCustomChallenge username options meta params env) = [] := by
  unfold callbackCreateObjCustomChallenge
  rcases env with ⟨pp, cc, rc⟩
  dsimp only
  split
  · rfl
  · rcases pp with e | init
    · rfl
    · rw [settles_append]
      rcases cc with e | u
      · cases abortControllerActive options <;> simp [settles, Action.settleOutcome]
      · rcases rc with e | r
        · cases abortControllerActive options <;> simp [settles, Action.settleOutcome]
        · rcases r with ⟨jwt, dID⟩
          rcases dID with _ | d <;>
            cases abortControllerActive options <;>
              simp [settles, Action.settleOutcome]

theorem callbackCreate_wellBehaved (username : String)
    (options : CustomAuthenticationOptions) (meta : ClientMetadata)
    (params : ChallengeParams) (env : Fido2CreateEnv) :
    WellBehavedTrace (callbackCreateObjCustomChallenge username options meta params env) :=
  wellBehaved_of_settles_nil (callbackCreate_settles_nil username options meta params env)

/-- An action that neither settles nor answers can be prepended to a well
behaved trace. -/
theorem wellBehaved_cons_silent (a : Action) (as : List Action)
    (hs : a.settleOutcome = none) (hd : a.isSendAnswer = false)
    (h : WellBehavedTrace as) : WellBehavedTrace (a :: as) := by
  have h2 := wellBehaved_append_silent [a] as
    (by simp [settles_cons, hs, settles_nil]) (by simp [sendsAnswer, Action.isSendAnswer] at hd ⊢; simp [hd]) h
  exact h2

/-- The if-present abort prefix is silent. -/
theorem wellBehaved_abort_prefix (options : CustomAuthenticationOptions)
    (as : List Action) (h : WellBehavedTrace as) :
    WellBehavedTrace
      ((if abortControllerActive options then [Action.abortController] else []) ++ as) := by
  by_cases hab : abortControllerActive options = true
  · rw [if_pos hab]
    exact wellBehaved_append_silent _ _ rfl rfl h
  · rw [if_neg hab]
    exact h

/-- The FIDO2_GET customChallenge handler settles at most once and never
both settles and answers. -/
theorem callbackGet_wellBehaved (username : String)
    (options : CustomAuthenticationOptions) (meta : ClientMetadata)
    (appId deviceInfo : String) (env : Fido2GetEnv) :
    WellBehavedTrace (callbackGetObjCustomChallenge username options meta appId deviceInfo env) := by
  unfold callbackGetObjCustomChallenge
  refine wellBehaved_cons_silent _ _ rfl rfl ?_
  split
  · exact (fido2GetCatch_wellBehaved options username _).1
  · split
    · split
      · split
        · exact wellBehaved_of_settles_nil rfl
        · exact wellBehaved_of_settles_nil rfl
      · exact wellBehaved_settle_only _
    · refine wellBehaved_abort_prefix options _ ?_
      refine wellBehaved_cons_silent _ _ rfl rfl ?_
      split
      · exact (fido2GetCatch_wellBehaved options username _).1
      · refine wellBehaved_cons_silent _ _ rfl rfl ?_
        split
        · exact (fido2GetCatch_wellBehaved options username _).1
        · exact wellBehaved_of_settles_nil rfl

/-- A single challenge answer is a well behaved trace. -/
theorem wellBehaved_sendAnswer_only (answer : String) (meta : ClientMetadata) :
    WellBehavedTrace [Action.sendAnswer answer meta] :=
  wellBehaved_of_settles_nil rfl

theorem callbackJWT_wellBehaved (token : String) (meta : ClientMetadata)
    (params : ChallengeParams) :
    WellBehavedTrace (callbackJWTObjCustomChallenge token meta params) :=
  wellBehaved_sendAnswer_only token meta

theorem callbackEmailOTP_wellBehaved (meta : ClientMetadata)
    (params : ChallengeParams) :
    WellBehavedTrace (callbackEmailOTPCustomChallenge meta params) := by
  unfold callbackEmailOTPCustomChallenge
  split
  · exact wellBehaved_sendAnswer_only _ _
  · split
    · exact wellBehaved_settle_only _
    · exact wellBehaved_settle_only _

theorem completeCallback_wellBehaved :
    WellBehavedTrace completeCallbackCustomChallenge :=
  wellBehaved_settle_only _

theorem p15Fido2GetCatch_wellBehaved (e : JsError) :
    WellBehavedTrace (p15Fido2GetCatch e) := by
  unfold p15Fido2GetCatch
  split
  · exact wellBehaved_settle_only _
  · exact wellBehaved_of_settles_nil rfl

theorem p15CallbackGet_wellBehaved (username : String)
    (options : CustomAuthenticationOptions) (meta : ClientMetadata)
    (appId deviceInfo : String) (env : P15GetEnv) :
    WellBehavedTrace
      (p15CallbackGetObjCustomChallenge username options meta appId deviceInfo env) := by
  unfold p15CallbackGetObjCustomChallenge
  refine wellBehaved_cons_silent _ _ rfl rfl ?_
  split
  · exact p15Fido2GetCatch_wellBehaved _
  · split
    · exact wellBehaved_settle_only _
    · refine wellBehaved_abort_prefix options _ ?_
      refine wellBehaved_cons_silent _ _ rfl rfl ?_
      split
      · exact p15Fido2GetCatch_wellBehaved _
      · refine wellBehaved_cons_silent _ _ rfl rfl ?_
        split
        · exact p15Fido2GetCatch_wellBehaved _
        · exact wellBehaved_of_settles_nil rfl

/-- The conversation driver settles the promise at most once whenever every
challenge round is well behaved and the terminal success callback settles at
most once. -/
theorem runCustomAuth_settles_le_one
    (handler : ChallengeParams → RoundEnv → List Action)
    (onSuccess : SessionTokens → List Action)
    (hh : ∀ p e, WellBehavedTrace (handler p e))
    (hs : ∀ s, (settles (onSuccess s)).length ≤ 1) :
    ∀ events, (settles (runCustomAuth handler onSuccess events).1).length ≤ 1 := by
  intro events
  induction events with
  | nil => simp [runCustomAuth, settles]
  | cons e rest ih =>
    cases e with
    | success s => simpa [runCustomAuth] using hs s
    | failure e => simp [runCustomAuth, settles, Action.settleOutcome]
    | challenge params env =>
      by_cases hsend : sendsAnswer (handler params env) = true
      · have hnil := (hh params env).2 hsend
        simp only [runCustomAuth, hsend, if_true]
        rw [settles_append, hnil]
        simpa using ih
      · simp only [runCustomAuth, hsend, if_false]
        exact (hh params env).1

/-! Claim theorems. -/

/-- C1 counterexample: a FIDO2_GET orchestration call whose auth-init
result has match score 50 (below the default threshold 80) and whose
options carry a registered fallback handler runs to quiescence (the
conversation is over, no provider reply is awaited) with zero settlements:
the promise neither resolves nor rejects, refuting the claim that every
call produces exactly one terminal outcome. -/
theorem fido2Get_fallback_run_no_settlement :
    settlesOf (customAuthenticationPasskey "bob" "" CustomAuthentication.FIDO2_GET
      sampleFallbackOptions "dev" "ua" "app" "sdi"
      [ProviderEvent.challenge { challenge := none } sampleRoundEnv]) =
    some ([], false) := rfl

/-- C1 (amended): every orchestration call (customAuthenticationPasskey in
any mode, and customAuthenticationComplete) settles its promise at most
once — never more than one terminal outcome — but not always, as the
counterexample shows, exactly once. -/
theorem orchestration_settles_at_most_once :
    (∀ username token typ options deviceInfo userAgent appId serviceDeviceInfo
        events,
      settlesAtMostOnce (customAuthenticationPasskey username token typ options
        deviceInfo userAgent appId serviceDeviceInfo events)) ∧
    (∀ answer typ options events,
      (settles (customAuthenticationComplete answer typ options events).1).length ≤ 1) := by
  have hsucc : ∀ s, (settles (srcOnSuccess s)).length ≤ 1 := by
    intro s
    simp [srcOnSuccess, settles, Action.settleOutcome]
  constructor
  · intro username token typ options di ua appId sdi events
    cases typ with
    | FIDO2_CREATE =>
      exact runCustomAuth_settles_le_one _ _
        (fun p e => callbackCreate_wellBehaved username options _ p e.create)
        hsucc events
    | FIDO2_GET =>
      exact runCustomAuth_settles_le_one _ _
        (fun p e => callbackGet_wellBehaved username options _ appId sdi e.get)
        hsucc events
    | ACCESS_JWT =>
      exact runCustomAuth_settles_le_one _ _
        (fun p e => callbackJWT_wellBehaved token _ p)
        hsucc events
    | EMAIL_OTP => trivial
    | AUTH_PARAMS => trivial
  · intro answer typ options events
    have h := runCustomAuth_settles_le_one
      (fun _ _ => completeCallbackCustomChallenge) srcOnSuccess
      (fun _ _ => completeCallback_wellBehaved) hsucc events
    simpa [customAuthenticationComplete, settles_cons, Action.settleOutcome] using h

/-- C2 counterexample: in the primary variant, a FIDO2_GET round with match
score 50 (below the default threshold 80) and a registered fallback handler
invokes the handler with the username and the offered fallback method list
but performs no settlement at all — the call does not resolve with
isFallback set (the promise of this variant resolves with a provider
session and carries no AuthResult), refuting the claim that the call
resolves. -/
theorem fido2Get_lowMatch_handler_registered_does_not_resolve :
    callbackGetObjCustomChallenge "bob" sampleFallbackOptions sampleMeta "app"
        "sdi" sampleLowScoreGetEnv =
      [Action.authInit
         { appId := "app", username := "bob",
           usernameType := "email", deviceInfo := "sdi" },
       Action.onFallback "bob" ["email_otp"]] ∧
    settles (callbackGetObjCustomChallenge "bob" sampleFallbackOptions
      sampleMeta "app" "sdi" sampleLowScoreGetEnv) = [] :=
  ⟨rfl, rfl⟩

/-- C2 (amended): in FIDO2_GET, for an auth-init result carrying match
score s: when s is nonzero and below the effective threshold (default 80),
with no fallback handler registered the call rejects with the
fallback-coded error (no passkey detected / ERROR_FALLBACK), and with a
fallback handler registered the handler is invoked with the username and
the offered fallback method list but the call then neither resolves nor
rejects; when s = 0 — also below the threshold, but falsy in JavaScript
(line 170 tests matchScore && matchScore < threshold) — the code instead
proceeds to the WebAuthn ceremony. -/
theorem fido2Get_lowMatch_policy (username : String)
    (options : CustomAuthenticationOptions) (meta : ClientMetadata)
    (appId deviceInfo : String) (env : Fido2GetEnv) (r : AuthInitResult)
    (s : Nat)
    (hinit : env.authInit = .ok (some r))
    (hscore : r.matchScore = some s) :
    (s ≠ 0 → s < effectiveMatchThreshold options →
      (options.fallback = false →
        callbackGetObjCustomChallenge username options meta appId deviceInfo env =
          [Action.authInit
             { appId := appId, username := username,
               usernameType := "email", deviceInfo := deviceInfo },
           Action.settle (Outcome.err noPasskeyDetectedError)]) ∧
      (options.fallback = true →
        callbackGetObjCustomChallenge username options meta appId deviceInfo env =
          [Action.authInit
             { appId := appId, username := username,
               usernameType := "email", deviceInfo := deviceInfo },
           Action.onFallback username (r.fallbackOptions.getD [])])) ∧
    (s = 0 →
      Action.getCredential ∈
        callbackGetObjCustomChallenge username options meta appId deviceInfo env) := by
  unfold callbackGetObjCustomChallenge
  rw [hinit]
  constructor
  · intro hs0 hlt
    have hlow : lowMatchCondition (some r) (effectiveMatchThreshold options) = true := by
      simp [lowMatchCondition, hscore, hs0, hlt]
    constructor
    · intro hf
      simp [hlow, hf]
    · intro hf
      simp [hlow, hf]
  · intro hs0
    have hlow : lowMatchCondition (some r) (effectiveMatchThreshold options) = false := by
      simp [lowMatchCondition, hscore, hs0]
    simp [hlow, List.mem_append]

/-- C2 witness: the amended policy applied at two concrete environments —
score 50 with a registered handler (handler invoked, nothing settles) and
score 0 (the ceremony branch is entered). -/
theorem fido2Get_lowMatch_policy_witness :
    sampleLowScoreGetEnv.authInit = .ok (some sampleLowScoreInit) ∧
    sampleLowScoreInit.matchScore = some 50 ∧
    (sampleFallbackOptions.fallback = true →
      callbackGetObjCustomChallenge "bob" sampleFallbackOptions sampleMeta
          "app" "sdi" sampleLowScoreGetEnv =
        [Action.authInit
           { appId := "app", username := "bob",
             usernameType := "email", deviceInfo := "sdi" },
         Action.onFallback "bob" (sampleLowScoreInit.fallbackOptions.getD [])]) ∧
    sampleZeroScoreGetEnv.authInit = .ok (some sampleZeroScoreInit) ∧
    sampleZeroScoreInit.matchScore = some 0 ∧
    Action.getCredential ∈
      callbackGetObjCustomChallenge "bob" sampleFallbackOptions sampleMeta
        "app" "sdi" sampleZeroScoreGetEnv := by
  refine ⟨rfl, rfl, ?_, rfl, rfl, ?_⟩
  · exact ((fido2Get_lowMatch_policy "bob" sampleFallbackOptions sampleMeta
      "app" "sdi" sampleLowScoreGetEnv sampleLowScoreInit 50 rfl rfl).1
      (by decide) (by decide)).2
  · exact (fido2Get_lowMatch_policy "bob" sampleFallbackOptions sampleMeta
      "app" "sdi" sampleZeroScoreGetEnv sampleZeroScoreInit 0 rfl rfl).2 rfl

/-- C3 counterexample: the ACCESS_JWT handler answers an AUTH_PARAMS-tagged
challenge with the caller token, not with the AUTH_PARAMS sentinel (the
echo is commented out in the source), refuting the claim that the sentinel
is echoed in every mode. -/
theorem accessJwt_authParams_not_echoed :
    callbackJWTObjCustomChallenge "callerToken" sampleMeta
        { challenge := some (CustomAuthentication.AUTH_PARAMS).value } =
      [Action.sendAnswer "callerToken" sampleMeta] ∧
    "callerToken" ≠ (CustomAuthentication.AUTH_PARAMS).value :=
  ⟨rfl, by decide⟩

/-- C3 (amended): on an AUTH_PARAMS-tagged challenge, only the FIDO2_CREATE
and EMAIL_OTP handlers echo the sentinel; the ACCESS_JWT handler sends the
caller token instead, and the FIDO2_GET handler ignores the challenge tag
altogether and starts its mode-specific processing (its first action is the
backend auth-init call). -/
theorem authParams_echo_per_mode (username token : String)
    (options : CustomAuthenticationOptions)
    (metaC metaO metaJ metaG : ClientMetadata) (params : ChallengeParams)
    (envC : Fido2CreateEnv) (appId deviceInfo : String) (envG : Fido2GetEnv)
    (h : params.challenge = some (CustomAuthentication.AUTH_PARAMS).value) :
    callbackCreateObjCustomChallenge username options metaC params envC =
      [Action.sendAnswer (CustomAuthentication.AUTH_PARAMS).value metaC] ∧
    callbackEmailOTPCustomChallenge metaO params =
      [Action.sendAnswer (CustomAuthentication.AUTH_PARAMS).value metaO] ∧
    callbackJWTObjCustomChallenge token metaJ params =
      [Action.sendAnswer token metaJ] ∧
    (∃ rest,
      callbackGetObjCustomChallenge username options metaG appId deviceInfo envG =
        Action.authInit
          { appId := appId, username := username,
            usernameType := "email", deviceInfo := deviceInfo } :: rest) := by
  refine ⟨?_, ?_, rfl, ⟨_, rfl⟩⟩
  · unfold callbackCreateObjCustomChallenge
    rw [if_pos h]
  · unfold callbackEmailOTPCustomChallenge
    rw [if_pos h]

/-- C3 witness: the per-mode behaviour applied at a concrete
AUTH_PARAMS-tagged challenge. -/
theorem authParams_echo_per_mode_witness :
    ({ challenge := some (CustomAuthentication.AUTH_PARAMS).value } :
        ChallengeParams).challenge =
      some (CustomAuthentication.AUTH_PARAMS).value ∧
    callbackEmailOTPCustomChallenge sampleMeta
        { challenge := some (CustomAuthentication.AUTH_PARAMS).value } =
      [Action.sendAnswer (CustomAuthentication.AUTH_PARAMS).value sampleMeta] :=
  ⟨rfl,
   (authParams_echo_per_mode "bob" "tok" sampleFallbackOptions sampleMeta
     sampleMeta sampleMeta sampleMeta
     { challenge := some (CustomAuthentication.AUTH_PARAMS).value }
     sampleCreateEnv "app" "sdi" sampleLowScoreGetEnv rfl).2.1⟩

/-- C4 counterexample: in the primary variant, a provider retry signal
during customAuthenticationComplete makes the call resolve with null — a
resolution, not an error — refuting the claim that the call terminates with
a distinct retry error. -/
theorem complete_retry_resolves_null_not_error :
    settles (customAuthenticationComplete "123456" CustomAuthentication.EMAIL_OTP
      sampleFallbackOptions
      [ProviderEvent.challenge { challenge := none } sampleRoundEnv]).1 =
      [Outcome.null] ∧
    Outcome.isErr Outcome.null = false :=
  ⟨rfl, rfl⟩

/-- C4 (amended): a provider retry signal during completion always
terminates the call with a caller-visible non-success outcome, but the two
variants disagree on its shape: the primary variant resolves with null,
while the part_015 variant rejects with the distinct retry error
(error - please retry); neither resolves with a session nor silently
swallows the signal. -/
theorem complete_retry_outcomes (answer : String)
    (typ : CustomAuthentication) (options : CustomAuthenticationOptions)
    (params : ChallengeParams) (env : RoundEnv) :
    settles (customAuthenticationComplete answer typ options
      [ProviderEvent.challenge params env]).1 = [Outcome.null] ∧
    settles (p15CustomAuthenticationComplete answer typ options
      [ProviderEvent.challenge params env]).1 = [Outcome.err p15RetryError] :=
  ⟨rfl, rfl⟩

theorem settles_cons_silent (a : Action) (as : List Action)
    (h : a.settleOutcome = none) : settles (a :: as) = settles as := by
  rw [settles_cons, h]

theorem settles_if_abort (c : Bool) :
    settles (if c = true then [Action.abortController] else []) = [] := by
  cases c <;> simp [settles, Action.settleOutcome]

theorem p15Catch_resultFlagsOk (e : JsError) :
    (settles (p15Fido2GetCatch e)).all resultFlagsOk = true := by
  unfold p15Fido2GetCatch
  split <;> rfl

/-- C5: the AuthResult flag invariant.  Every construction site of an
AuthResult in the sources is one of the three constructors embedded here —
the success result of every onSuccess callback (part_015 lines 561-568,
641-648, 672-679, 812-819, 875-882), the FIDO2_GET fallback result (lines
601-607), and the signUp result without auto sign-in (lines 890-898) — and
none has isAuthenticated and isFallback both true; success results carry
isAuthenticated without isFallback, the fallback result carries isFallback
with empty tokens, and every outcome a FIDO2_GET round can resolve
satisfies the invariant. -/
theorem authResult_flags_never_both_true :
    (∀ s, (mkSuccessAuthResult s).isAuthenticated = true ∧
      (mkSuccessAuthResult s).isFallback = false) ∧
    (∀ m, (p15FallbackAuthResult m).isFallback = true ∧
      (p15FallbackAuthResult m).isAuthenticated = false ∧
      (p15FallbackAuthResult m).idToken = "" ∧
      (p15FallbackAuthResult m).accessToken = "") ∧
    (p15SignUpAuthResult.isAuthenticated = false ∧
      p15SignUpAuthResult.isFallback = false) ∧
    (∀ username options meta appId deviceInfo env,
      (settles (p15CallbackGetObjCustomChallenge username options meta appId
        deviceInfo env)).all resultFlagsOk = true) ∧
    (∀ s, (settles (p15OnSuccess s)).all resultFlagsOk = true) := by
  refine ⟨fun s => ⟨rfl, rfl⟩, fun m => ⟨rfl, rfl, rfl, rfl⟩, ⟨rfl, rfl⟩, ?_, fun s => rfl⟩
  intro username options meta appId deviceInfo env
  unfold p15CallbackGetObjCustomChallenge
  rw [settles_cons_silent (Action.authInit _) _ rfl]
  split
  · exact p15Catch_resultFlagsOk _
  · split
    · rfl
    · rw [settles_append, settles_if_abort, List.nil_append,
        settles_cons_silent Action.getCredential _ rfl]
      split
      · exact p15Catch_resultFlagsOk _
      · rw [settles_cons_silent Action.authComplete _ rfl]
        split
        · exact p15Catch_resultFlagsOk _
        · rfl

/-- C6: in FIDO2_CREATE, on a substantive (non-AUTH_PARAMS) challenge whose
public-key options parse, when the caller-supplied AbortController exists
with its signal not yet aborted, abort() is performed before
createNavigatorCredential is invoked: the trace begins with the abort
action immediately followed by the credential-creation action. -/
theorem fido2Create_abort_before_create (username : String)
    (options : CustomAuthenticationOptions) (meta : ClientMetadata)
    (params : ChallengeParams) (env : Fido2CreateEnv) (pk : String)
    (hab : options.abortController = some false)
    (hch : params.challenge ≠ some (CustomAuthentication.AUTH_PARAMS).value)
    (hpk : env.parsePublicKey = .ok pk) :
    ∃ rest, callbackCreateObjCustomChallenge username options meta params env =
      Action.abortController :: Action.createCredential pk :: rest := by
  have hact : abortControllerActive options = true := by
    simp [abortControllerActive, hab]
  unfold callbackCreateObjCustomChallenge
  rw [if_neg hch]
  simp only [hpk]
  rw [if_pos hact]
  exact ⟨_, rfl⟩

/-- C6 witness: the abort-before-create ordering at a concrete active
controller and successful parse. -/
theorem fido2Create_abort_before_create_witness :
    sampleAbortOptions.abortController = some false ∧
    (({ challenge := none } : ChallengeParams).challenge ≠
      some (CustomAuthentication.AUTH_PARAMS).value) ∧
    sampleCreateEnv.parsePublicKey = .ok "parsedPublicKeyOptions" ∧
    (∃ rest, callbackCreateObjCustomChallenge "bob" sampleAbortOptions
        sampleMeta { challenge := none } sampleCreateEnv =
      Action.abortController ::
        Action.createCredential "parsedPublicKeyOptions" :: rest) :=
  ⟨rfl, by decide, rfl,
   fido2Create_abort_before_create "bob" sampleAbortOptions sampleMeta
     { challenge := none } sampleCreateEnv "parsedPublicKeyOptions"
     rfl (by decide) rfl⟩

theorem runJWT_trace_props (token : String) (meta : ClientMetadata)
    (events : List ProviderEvent) :
    noBackendCalls (runCustomAuth
      (fun p _ => callbackJWTObjCustomChallenge token meta p)
      srcOnSuccess events).1 = true ∧
    answersAre token (runCustomAuth
      (fun p _ => callbackJWTObjCustomChallenge token meta p)
      srcOnSuccess events).1 = true := by
  induction events with
  | nil => exact ⟨rfl, rfl⟩
  | cons e rest ih =>
    cases e with
    | success s => exact ⟨rfl, rfl⟩
    | failure e => exact ⟨rfl, rfl⟩
    | challenge p env =>
      constructor
      · simpa [runCustomAuth, callbackJWTObjCustomChallenge, sendsAnswer,
          Action.isSendAnswer, noBackendCalls] using ih.1
      · simpa [runCustomAuth, callbackJWTObjCustomChallenge, sendsAnswer,
          Action.isSendAnswer, answersAre] using ih.2

/-- C7: in ACCESS_JWT mode the whole orchestration run performs no
passkey-backend call and every challenge answer it sends is exactly the
caller-supplied token, verbatim. -/
theorem accessJwt_answer_is_token_no_backend (username token : String)
    (options : CustomAuthenticationOptions)
    (deviceInfo userAgent appId serviceDeviceInfo : String)
    (events : List ProviderEvent) :
    ∃ tr, customAuthenticationPasskey username token
        CustomAuthentication.ACCESS_JWT options deviceInfo userAgent appId
        serviceDeviceInfo events = some tr ∧
      noBackendCalls tr.1 = true ∧ answersAre token tr.1 = true := by
  refine ⟨_, rfl, ?_, ?_⟩
  · exact (runJWT_trace_props token _ events).1
  · exact (runJWT_trace_props token _ events).2

/-- C8: in FIDO2_CREATE, once the WebAuthn credential is produced the
handler calls the backend registration-complete operation; if a device id
is returned the trusted-device record is saved for the user, and in every
case the backend-issued jwtAccess token is then forwarded verbatim as the
challenge answer. -/
theorem fido2Create_completion_flow (username : String)
    (options : CustomAuthenticationOptions) (meta : ClientMetadata)
    (params : ChallengeParams) (env : Fido2CreateEnv) (pk jwt : String)
    (dID : Option String)
    (hch : params.challenge ≠ some (CustomAuthentication.AUTH_PARAMS).value)
    (hpk : env.parsePublicKey = .ok pk)
    (hcc : env.createCredential = .ok ())
    (hrc : env.regComplete = .ok { jwtAccess := jwt, deviceID := dID }) :
    callbackCreateObjCustomChallenge username options meta params env =
      (if abortControllerActive options then [Action.abortController] else [])
      ++ [Action.createCredential pk, Action.regComplete]
      ++ (match dID with
          | some d => [Action.saveTrustedDevice username d]
          | none => [])
      ++ [Action.setJwtCookie jwt, Action.sendAnswer jwt meta] := by
  unfold callbackCreateObjCustomChallenge
  rw [if_neg hch]
  simp only [hpk, hcc, hrc]
  cases dID <;> simp

/-- C8 witness: the completion flow at a concrete successful environment
returning a device id. -/
theorem fido2Create_completion_flow_witness :
    (({ challenge := none } : ChallengeParams).challenge ≠
      some (CustomAuthentication.AUTH_PARAMS).value) ∧
    sampleCreateEnv.parsePublicKey = .ok "parsedPublicKeyOptions" ∧
    sampleCreateEnv.createCredential = .ok () ∧
    sampleCreateEnv.regComplete =
      .ok { jwtAccess := "backendJwt", deviceID := some "device1" } ∧
    callbackCreateObjCustomChallenge "bob" sampleAbortOptions sampleMeta
        { challenge := none } sampleCreateEnv =
      (if abortControllerActive sampleAbortOptions then [Action.abortController]
       else [])
      ++ [Action.createCredential "parsedPublicKeyOptions", Action.regComplete]
      ++ (match (some "device1" : Option String) with
          | some d => [Action.saveTrustedDevice "bob" d]
          | none => [])
      ++ [Action.setJwtCookie "backendJwt",
          Action.sendAnswer "backendJwt" sampleMeta] :=
  ⟨by decide, rfl, rfl, rfl,
   fido2Create_completion_flow "bob" sampleAbortOptions sampleMeta
     { challenge := none } sampleCreateEnv "parsedPublicKeyOptions"
     "backendJwt" (some "device1") (by decide) rfl rfl rfl⟩

/-- C9: calling completeEmailOTP with no pending user (no prior successful
email-OTP init) fails with the No user initialized for email OTP error; the
error return carries no trace, so no challenge answer is sent to the
identity provider. -/
theorem completeEmailOTP_no_user_error (otp : String)
    (options : CustomAuthenticationOptions) (events : List ProviderEvent) :
    completeEmailOTP none otp options events = .error noUserInitializedError ∧
    noUserInitializedError.message = "No user initialized for email OTP" :=
  ⟨rfl, rfl⟩

/-- C10 counterexample: for the mixed-case username Alice the trusted-device
record is persisted under the storage key trusted-device.alice —
LoginIDService.saveTrustedDevice lowercases the username when building the
key — which agrees in case with the provider identity alice; the key is not
built from the original-case username, refuting the claim that the provider
identity and the trusted-device key differ in case. -/
theorem trustedDevice_key_not_original_case :
    saveTrustedDeviceStorageKey "Alice" =
      "trusted-device." ++ cognitoIdentityUsername "Alice" ∧
    saveTrustedDeviceStorageKey "Alice" ≠ "trusted-device." ++ "Alice" :=
  ⟨by decide, by decide⟩

/-- C10 (amended): the identity-provider user and authentication details
are built from the lowercased username; on FIDO2_CREATE success the
orchestrator passes the caller username in its original case to
saveTrustedDevice (src/src/cognito/index.ts line 124), but the service
lowercases it when building the persisted storage key
(src/src/services/loginid.ts line 217), so the trusted-device key always
agrees in case with the provider identity. -/
theorem trustedDevice_key_matches_identity (username : String)
    (options : CustomAuthenticationOptions) (meta : ClientMetadata)
    (params : ChallengeParams) (env : Fido2CreateEnv) (pk jwt d : String)
    (hch : params.challenge ≠ some (CustomAuthentication.AUTH_PARAMS).value)
    (hpk : env.parsePublicKey = .ok pk)
    (hcc : env.createCredential = .ok ())
    (hrc : env.regComplete = .ok { jwtAccess := jwt, deviceID := some d }) :
    cognitoIdentityUsername username = jsToLowerCase username ∧
    Action.saveTrustedDevice username d ∈
      callbackCreateObjCustomChallenge username options meta params env ∧
    saveTrustedDeviceStorageKey username =
      "trusted-device." ++ cognitoIdentityUsername username := by
  refine ⟨rfl, ?_, rfl⟩
  unfold callbackCreateObjCustomChallenge
  rw [if_neg hch]
  simp only [hpk, hcc, hrc]
  simp

/-- C10 witness: at the mixed-case username Alice the original case is
passed to the service while the persisted key equals the trusted-device
prefix plus the lowercased provider identity. -/
theorem trustedDevice_key_matches_identity_witness :
    (({ challenge := none } : ChallengeParams).challenge ≠
      some (CustomAuthentication.AUTH_PARAMS).value) ∧
    sampleCreateEnv.regComplete =
      .ok { jwtAccess := "backendJwt", deviceID := some "device1" } ∧
    Action.saveTrustedDevice "Alice" "device1" ∈
      callbackCreateObjCustomChallenge "Alice" sampleAbortOptions sampleMeta
        { challenge := none } sampleCreateEnv ∧
    saveTrustedDeviceStorageKey "Alice" = "trusted-device.alice" := by
  have h := trustedDevice_key_matches_identity "Alice" sampleAbortOptions
    sampleMeta { challenge := none } sampleCreateEnv "parsedPublicKeyOptions"
    "backendJwt" "device1" (by decide) rfl rfl rfl
  exact ⟨by decide, rfl, h.2.1, h.2.2.trans (by decide)⟩

end CognitoSDK
